import Mathlib

/-
Shallow embedding of the verifiable-inference library (TypeScript sources
`src/index.ts` for the transcript-proof strategy built on the Reclaim zkTLS
witness, and `src/eigenai.ts` for the re-execution strategy built on the
EigenAI OpenAI-compatible endpoint, with the shared interfaces of
`src/types.ts`).

Modelling conventions, used uniformly below:
- Asynchronous network collaborators (`zkFetch`, `verifyProof`,
  `client.chat.completions.create`) are passed in as explicit function
  parameters returning `Except String`; a `.error m` models the collaborator
  throwing a JavaScript `Error` whose `.message` is `m`.
- A JavaScript value that may be `undefined` is an `Option`; JavaScript
  truthiness of optional strings, numbers and arrays is modelled explicitly
  (`undefined`, the empty string and the number 0 are falsy, an empty array
  is truthy).
- A JSON-string-valued field is modelled by the outcome of parsing it
  (`JsonOf` and `JsonStr` below): `JSON.stringify` of a plain data value is
  modelled as the well-formed case, since `JSON.parse` recovers a
  structurally equal value from it.
- `Date.now()` and `Math.random()` are supplied by the caller (`now : Int`,
  `rand : Rat`).
- Untyped JSON reaching the code (the provider response bodies) is modelled
  with exactly the shape the code inspects: optional fields the code reads,
  and an `Option (List _)` whose `none` case covers both a missing field and
  a non-array value for the `Array.isArray` check.
-/

namespace VerifiableInference

/-- Equality on collaborator outcomes is decidable, so that concrete runs of
the embedded operations can be settled by evaluation. -/
instance {ε α : Type} [DecidableEq ε] [DecidableEq α] :
    DecidableEq (Except ε α) := fun a b =>
  match a, b with
  | .error x, .error y =>
    if h : x = y then isTrue (by rw [h])
    else isFalse (fun c => h (Except.error.inj c))
  | .ok x, .ok y =>
    if h : x = y then isTrue (by rw [h])
    else isFalse (fun c => h (Except.ok.inj c))
  | .error _, .ok _ => isFalse (fun c => Except.noConfusion c)
  | .ok _, .error _ => isFalse (fun c => Except.noConfusion c)

/-- JavaScript truthiness of an optional string: `undefined` and `""` are
falsy, every other string is truthy. -/
def strTruthy : Option String → Bool
  | none => false
  | some s => s ≠ ""

/-- The JavaScript idiom `a || dflt` on an optional string (`""` falls back). -/
def strOrDefault (a : Option String) (dflt : String) : String :=
  match a with
  | some s => if s = "" then dflt else s
  | none => dflt

/-- The JavaScript idiom `a || dflt` on an optional number (0 falls back). -/
def numOrDefault (a : Option Int) (dflt : Int) : Int :=
  match a with
  | some n => if n = 0 then dflt else n
  | none => dflt

/-- Chat message, `interface Message` of `types.ts`: role is one of the
strings user, assistant, system. -/
structure Message where
  role : String
  content : String
deriving DecidableEq, Repr

/-- Outcome of `JSON.parse` on a string field expected to encode an `α`:
either a string that parses to a value, or one that makes `JSON.parse`
throw `msg`. `JSON.stringify` of a plain data value is modelled as
`wellFormed`. -/
inductive JsonOf (α : Type) where
  | wellFormed (a : α)
  | malformed (msg : String)
deriving DecidableEq, Repr

/-- Message of the SyntaxError raised by `JSON.parse(undefined)`: reading a
field the serializer never set yields `undefined`, which does not parse. -/
def jsonParseUndefinedError : String :=
  "Unexpected token u in JSON at position 0"

/-- `JSON.parse` applied to an object field that may be absent
(`undefined`). -/
def jsonParseField {α : Type} : Option (JsonOf α) → Except String α
  | none => .error jsonParseUndefinedError
  | some (.malformed m) => .error m
  | some (.wellFormed a) => .ok a

/-! ## Transcript-proof strategy (`VerifiableClaude`, src/index.ts) -/

/-- One element of the `content` array of a parsed Anthropic response; the
code reads only `item.type` and `item.text`, both possibly absent
(src/index.ts lines 142-146). -/
structure ContentItem where
  type : Option String
  text : Option String
deriving DecidableEq, Repr

/-- The JSON value obtained from `JSON.parse(responseJson)`; the code reads
only `response.content`, and `none` models a missing or non-array `content`
(the `Array.isArray` check, line 142). -/
structure ParsedResponse where
  content : Option (List ContentItem)
deriving DecidableEq, Repr

/-- The extracted `response` string of a proof as seen through the parse it
undergoes: a nonempty string parsing to `v`, a nonempty string on which
`JSON.parse` throws `msg`, or the (falsy) empty string. -/
inductive JsonStr where
  | wellFormed (v : ParsedResponse)
  | malformed (msg : String)
  | emptyStr
deriving DecidableEq, Repr

/-- The `extractedParameterValues` map of a Reclaim proof; the code reads
only its `response` entry (line 133). -/
structure ExtractedParams where
  response : Option JsonStr
deriving DecidableEq, Repr

/-- Reclaim `Proof` bundle, kept opaque except for the one field the library
reads (`extractedParameterValues`); `verifyProof` consumes it whole through
the collaborator parameter. -/
structure Proof where
  extractedParameterValues : Option ExtractedParams
deriving DecidableEq, Repr

/-- Constant `ANTHROPIC_API_ENDPOINT` (src/index.ts line 17). -/
def ANTHROPIC_API_ENDPOINT : String := "https://api.anthropic.com/v1"

/-- Configuration `VerifiableClaudeConfig` of `types.ts`. -/
structure VerifiableClaudeConfig where
  apiKey : String
  reclaimAppId : String
  reclaimAppSecret : String
  endpoint : Option String
deriving DecidableEq, Repr

/-- Endpoint resolution in the constructor:
`this.endpoint = config.endpoint || ANTHROPIC_API_ENDPOINT` (line 37). -/
def claudeEndpoint (config : VerifiableClaudeConfig) : String :=
  strOrDefault config.endpoint ANTHROPIC_API_ENDPOINT

/-- `ClaudeGenerateOptions` of `types.ts`; the model is the string carried
by the `ClaudeModel` literal union. -/
structure ClaudeGenerateOptions where
  model : Option String
  messages : Option (List Message)
  prompt : Option String
  system : Option String
  maxTokens : Option Int
  temperature : Option Rat
  stopSequences : Option (List String)
deriving DecidableEq, Repr

/-- The JSON request body `generate` dispatches through `zkFetch`
(src/index.ts lines 77-93); optional fields are present exactly when the
code sets them. -/
structure ClaudeRequestBody where
  model : String
  max_tokens : Int
  messages : List Message
  system : Option String
  temperature : Rat
  stop_sequences : Option (List String)
deriving DecidableEq, Repr

/-- Error message of the pre-dispatch input check (line 73); quotes around
the field names are elided from the modelled message text. -/
def missingInputError : String :=
  "Either messages or prompt must be provided"

/-- Message-list construction of `VerifiableClaude.generate`
(src/index.ts lines 67-74): a present `messages` array is used as-is (an
empty array is truthy), otherwise a truthy `prompt` becomes a single user
message, otherwise the call throws before any dispatch. -/
def claudeBuildMessages (options : ClaudeGenerateOptions) :
    Except String (List Message) :=
  match options.messages with
  | some ms => .ok ms
  | none =>
    match options.prompt with
    | some p =>
      if p = "" then .error missingInputError
      else .ok [{ role := "user", content := p }]
    | none => .error missingInputError

/-- The request body built by `generate` (lines 62-93): defaults
`claude-3-5-sonnet-20241022`, 1024 tokens, temperature 1; `system` included
only when truthy, `stop_sequences` only when `stopSequences?.length` is
truthy (a nonempty array). -/
def claudeRequestBody (options : ClaudeGenerateOptions)
    (messages : List Message) : ClaudeRequestBody :=
  { model := strOrDefault options.model "claude-3-5-sonnet-20241022"
    max_tokens := numOrDefault options.maxTokens 1024
    messages := messages
    system := if strTruthy options.system then options.system else none
    temperature := (options.temperature).getD 1
    stop_sequences :=
      match options.stopSequences with
      | some l => if l.length ≠ 0 then some l else none
      | none => none }

/-- Text extraction from the parsed response (src/index.ts lines 141-147):
if `content` is an array, the first item whose `type` is the string text
contributes its `text` (with `|| ""` defaulting), otherwise the text is the
empty string. -/
def extractText (response : ParsedResponse) : String :=
  match response.content with
  | some items =>
    match items.find? (fun item => item.type == some "text") with
    | some item => (item.text).getD ""
    | none => ""
  | none => ""

/-- `VerifiableClaudeResult` of `types.ts`. -/
structure VerifiableClaudeResult where
  text : String
  proof : Proof
  timestamp : Int
  model : String
  provider : String
  rawResponse : Option ParsedResponse
deriving DecidableEq, Repr

/-- `VerificationResult` of `types.ts`: absent optional fields are `none`. -/
structure VerificationResult where
  isValid : Bool
  verifiedEndpoint : Option String
  error : Option String
deriving DecidableEq, Repr

/-- `VerifiableClaude.generate` (src/index.ts lines 61-162). `zkFetch` is
the Reclaim collaborator, called with the built body (URL, auth headers and
the extraction regex are fixed per client and do not vary in the model);
`.ok none` models `zkFetch` resolving to a falsy proof. Every failure after
the input check happens inside the `try` block and is re-thrown wrapped by
the `catch` (lines 157-161); the input-check error itself is thrown before
the `try` and is not wrapped. -/
def claudeGenerate (zkFetch : ClaudeRequestBody → Except String (Option Proof))
    (now : Int) (options : ClaudeGenerateOptions) :
    Except String VerifiableClaudeResult :=
  match claudeBuildMessages options with
  | .error e => .error e
  | .ok messages =>
    let body := claudeRequestBody options messages
    let attempt : Except String VerifiableClaudeResult :=
      match zkFetch body with
      | .error e => .error e
      | .ok none => .error "Failed to generate proof - no proof returned"
      | .ok (some proof) =>
        match proof.extractedParameterValues with
        | none => .error "Failed to extract response from proof"
        | some ev =>
          match ev.response with
          | none => .error "Failed to extract response from proof"
          | some .emptyStr => .error "Failed to extract response from proof"
          | some (.malformed m) => .error m
          | some (.wellFormed response) =>
            .ok { text := extractText response
                  proof := proof
                  timestamp := now
                  model := body.model
                  provider := "reclaim"
                  rawResponse := some response }
    match attempt with
    | .ok r => .ok r
    | .error m => .error ("Verifiable generation failed: " ++ m)

/-- `VerifiableClaude.verify` (src/index.ts lines 180-194): delegates to the
`verifyProof` collaborator; on success binds `verifiedEndpoint` to the
configured endpoint plus `/messages` exactly when valid; a thrown error is
caught and returned as an invalid result carrying the message. -/
def claudeVerify (verifyProofFn : Proof → Except String Bool)
    (config : VerifiableClaudeConfig) (result : VerifiableClaudeResult) :
    VerificationResult :=
  match verifyProofFn result.proof with
  | .ok isValid =>
    { isValid := isValid
      verifiedEndpoint :=
        if isValid then some (claudeEndpoint config ++ "/messages") else none
      error := none }
  | .error m => { isValid := false, verifiedEndpoint := none, error := some m }

/-! ## Re-execution strategy (`VerifiableEigenAI`, src/eigenai.ts) -/

/-- Constant `EIGENAI_ENDPOINT` (src/eigenai.ts line 13). -/
def EIGENAI_ENDPOINT : String := "https://eigenai.eigencloud.xyz/v1"

/-- Constant `DEFAULT_MODEL` (src/eigenai.ts line 14). -/
def DEFAULT_MODEL : String := "gpt-oss-120b-f16"

/-- `EigenAIConfig` of `types.ts`. -/
structure EigenAIConfig where
  apiKey : String
  endpoint : Option String
deriving DecidableEq, Repr

/-- Endpoint resolution in the constructor (line 34). -/
def eigenEndpoint (config : EigenAIConfig) : String :=
  strOrDefault config.endpoint EIGENAI_ENDPOINT

/-- `EigenAIGenerateOptions` of `types.ts`. -/
structure EigenAIGenerateOptions where
  model : Option String
  messages : Option (List Message)
  prompt : Option String
  system : Option String
  maxTokens : Option Int
  temperature : Option Rat
  seed : Option Int
  stop : Option (List String)
deriving DecidableEq, Repr

/-- The `requestParams` record of an attestation (`types.ts`):
`temperature` and `maxTokens` are optional there. -/
structure RequestParams where
  messages : List Message
  temperature : Option Rat
  maxTokens : Option Int
deriving DecidableEq, Repr

/-- `EigenAIAttestation` of `types.ts`. -/
structure EigenAIAttestation where
  seed : Int
  model : String
  requestId : Option String
  signatures : Option (List String)
  requestParams : RequestParams
deriving DecidableEq, Repr

/-- The chat-completion request sent through
`client.chat.completions.create`; `stop` is optional (absent in the
re-execution calls). -/
structure ChatRequest where
  model : String
  messages : List Message
  max_tokens : Int
  temperature : Rat
  seed : Int
  stop : Option (List String)
deriving DecidableEq, Repr

/-- The message inside one choice of a chat-completion response; `content`
may be null or absent. -/
structure ChoiceMessage where
  content : Option String
deriving DecidableEq, Repr

/-- One choice of a chat-completion response. -/
structure Choice where
  message : Option ChoiceMessage
deriving DecidableEq, Repr

/-- A chat-completion response: the code reads `response.id` and
`response.choices[0]?.message?.content`. -/
structure ChatResponse where
  id : String
  choices : List Choice
deriving DecidableEq, Repr

/-- The idiom `response.choices[0]?.message?.content || ""`
(src/eigenai.ts lines 105, 174, 220). -/
def choiceText (response : ChatResponse) : String :=
  match response.choices.head? with
  | some c =>
    match c.message with
    | some m => (m.content).getD ""
    | none => ""
  | none => ""

/-- `generateSeed` (src/eigenai.ts lines 44-46):
`Math.floor(Math.random() * 2147483647)`, with `Math.random()` modelled as
an exact rational in `[0, 1)` supplied by the caller. -/
def generateSeed (rand : Rat) : Int := ⌊rand * 2147483647⌋

/-- Message-list construction of `VerifiableEigenAI.generate`
(src/eigenai.ts lines 74-93): a truthy `system` seeds the list with a
system message; then a present `messages` array (truthy even when empty) is
appended, otherwise a truthy `prompt` is appended as a user message,
otherwise the call throws before any dispatch. The per-message map of the
source copies `role` and `content` unchanged. -/
def eigenBuildMessages (options : EigenAIGenerateOptions) :
    Except String (List Message) :=
  let base : List Message :=
    match options.system with
    | some s => if s = "" then [] else [{ role := "system", content := s }]
    | none => []
  match options.messages with
  | some ms => .ok (base ++ ms)
  | none =>
    match options.prompt with
    | some p =>
      if p = "" then .error missingInputError
      else .ok (base ++ [{ role := "user", content := p }])
    | none => .error missingInputError

/-- The seed `generate` uses: `options.seed ?? this.generateSeed()`
(line 71). -/
def eigenSeedOf (options : EigenAIGenerateOptions) (rand : Rat) : Int :=
  (options.seed).getD (generateSeed rand)

/-- The chat-completion request `generate` dispatches (src/eigenai.ts
lines 96-103): defaults `gpt-oss-120b-f16`, 1024 tokens, temperature 0. -/
def eigenGenerateRequest (options : EigenAIGenerateOptions) (rand : Rat)
    (messages : List Message) : ChatRequest :=
  { model := strOrDefault options.model DEFAULT_MODEL
    messages := messages
    max_tokens := numOrDefault options.maxTokens 1024
    temperature := (options.temperature).getD 0
    seed := eigenSeedOf options rand
    stop := options.stop }

/-- `EigenAIResult` of `types.ts`. -/
structure EigenAIResult where
  text : String
  attestation : EigenAIAttestation
  timestamp : Int
  model : String
  provider : String
  rawResponse : Option ChatResponse
deriving DecidableEq, Repr

/-- `EigenAIVerificationResult` of `types.ts`: absent optional fields are
`none`. -/
structure EigenAIVerificationResult where
  isValid : Bool
  outputMatches : Option Bool
  reExecutedOutput : Option String
  verifiedEndpoint : Option String
  error : Option String
deriving DecidableEq, Repr

/-- `VerifiableEigenAI.generate` (src/eigenai.ts lines 67-135). The
collaborator `create` models `this.client.chat.completions.create`. The
attestation records the seed, model, messages and the already-defaulted
temperature and maxTokens that were sent (lines 108-120); provider errors
inside the `try` are re-thrown wrapped (lines 130-134), the input-check
error is thrown before the `try` and is not wrapped. -/
def eigenGenerate (create : ChatRequest → Except String ChatResponse)
    (rand : Rat) (now : Int) (options : EigenAIGenerateOptions) :
    Except String EigenAIResult :=
  match eigenBuildMessages options with
  | .error e => .error e
  | .ok messages =>
    let req := eigenGenerateRequest options rand messages
    match create req with
    | .error m => .error ("EigenAI generation failed: " ++ m)
    | .ok response =>
      .ok { text := choiceText response
            attestation :=
              { seed := req.seed
                model := req.model
                requestId := some response.id
                signatures := none
                requestParams :=
                  { messages := messages
                    temperature := some req.temperature
                    maxTokens := some req.max_tokens } }
            timestamp := now
            model := req.model
            provider := "eigenai"
            rawResponse := some response }

/-- The re-execution request built by `verify` and `verifySerializedProof`
from an attestation (src/eigenai.ts lines 163-172 and 209-218):
`max_tokens: attestation.requestParams.maxTokens || 1024`,
`temperature: attestation.requestParams.temperature ?? 0`, and no `stop`
field. -/
def reExecRequest (attestation : EigenAIAttestation) : ChatRequest :=
  { model := attestation.model
    messages := attestation.requestParams.messages
    max_tokens := numOrDefault attestation.requestParams.maxTokens 1024
    temperature := (attestation.requestParams.temperature).getD 0
    seed := attestation.seed
    stop := none }

/-- `VerifiableEigenAI.verify` (src/eigenai.ts lines 158-190): re-executes
the attested request, compares the fresh output to `result.text` with exact
string equality, and catches any thrown error into an invalid result. -/
def eigenVerify (create : ChatRequest → Except String ChatResponse)
    (config : EigenAIConfig) (result : EigenAIResult) :
    EigenAIVerificationResult :=
  match create (reExecRequest result.attestation) with
  | .ok response =>
    let reExecutedOutput := choiceText response
    let outputMatches : Bool := reExecutedOutput == result.text
    { isValid := outputMatches
      outputMatches := some outputMatches
      reExecutedOutput := some reExecutedOutput
      verifiedEndpoint :=
        if outputMatches then some (eigenEndpoint config) else none
      error := none }
  | .error m =>
    { isValid := false
      outputMatches := some false
      reExecutedOutput := none
      verifiedEndpoint := none
      error := some m }

/-! ## Serialized proofs (runtime view shared by both strategies) -/

/-- Runtime model of a serialized proof object. TypeScript declares two
separate interfaces (`SerializedClaudeProof` carrying `proofJson`,
`SerializedEigenAIProof` carrying `attestationJson`), but at runtime both
are plain objects, and reading a field the serializer never set yields
`undefined` (`none` here). -/
structure SerializedRecord where
  proofJson : Option (JsonOf Proof)
  attestationJson : Option (JsonOf EigenAIAttestation)
  text : String
  timestamp : Int
  model : String
  provider : String
deriving DecidableEq, Repr

/-- `VerifiableClaude.serializeResult` (src/index.ts lines 230-238):
`proofJson := JSON.stringify(result.proof)`, modelled as the well-formed
encoding of the proof; the `attestationJson` field is never set. -/
def claudeSerializeResult (result : VerifiableClaudeResult) :
    SerializedRecord :=
  { proofJson := some (.wellFormed result.proof)
    attestationJson := none
    text := result.text
    timestamp := result.timestamp
    model := result.model
    provider := "reclaim" }

/-- Static `VerifiableClaude.verifySerializedProof` (src/index.ts
lines 203-222): parses `serialized.proofJson`, delegates to `verifyProof`,
and on success binds `verifiedEndpoint` to the constant default endpoint
plus `/messages` (the static method has no client configuration); any
thrown error, including a parse failure, is caught into an invalid result
carrying the message. -/
def claudeVerifySerializedProof (verifyProofFn : Proof → Except String Bool)
    (serialized : SerializedRecord) : VerificationResult :=
  match jsonParseField serialized.proofJson with
  | .error m => { isValid := false, verifiedEndpoint := none, error := some m }
  | .ok proof =>
    match verifyProofFn proof with
    | .ok isValid =>
      { isValid := isValid
        verifiedEndpoint :=
          if isValid then some (ANTHROPIC_API_ENDPOINT ++ "/messages")
          else none
        error := none }
    | .error m =>
      { isValid := false, verifiedEndpoint := none, error := some m }

/-- `VerifiableEigenAI.serializeResult` (src/eigenai.ts lines 244-252):
`attestationJson := JSON.stringify(result.attestation)`; the `proofJson`
field is never set. -/
def eigenSerializeResult (result : EigenAIResult) : SerializedRecord :=
  { proofJson := none
    attestationJson := some (.wellFormed result.attestation)
    text := result.text
    timestamp := result.timestamp
    model := result.model
    provider := "eigenai" }

/-- `VerifiableEigenAI.verifySerializedProof` (src/eigenai.ts
lines 200-236): parses `serialized.attestationJson`, re-executes the
attested request, compares the fresh output to `serialized.text`; any
thrown error, including a parse failure, is caught into an invalid
result. -/
def eigenVerifySerializedProof
    (create : ChatRequest → Except String ChatResponse)
    (config : EigenAIConfig) (serialized : SerializedRecord) :
    EigenAIVerificationResult :=
  match jsonParseField serialized.attestationJson with
  | .error m =>
    { isValid := false
      outputMatches := some false
      reExecutedOutput := none
      verifiedEndpoint := none
      error := some m }
  | .ok attestation =>
    match create (reExecRequest attestation) with
    | .ok response =>
      let reExecutedOutput := choiceText response
      let outputMatches : Bool := reExecutedOutput == serialized.text
      { isValid := outputMatches
        outputMatches := some outputMatches
        reExecutedOutput := some reExecutedOutput
        verifiedEndpoint :=
          if outputMatches then some (eigenEndpoint config) else none
        error := none }
    | .error m =>
      { isValid := false
        outputMatches := some false
        reExecutedOutput := none
        verifiedEndpoint := none
        error := some m }

/-! ## Concrete fixtures used by witnesses and counterexamples -/

/-- A proof bundle with no extracted parameters. -/
def proofEx : Proof := { extractedParameterValues := none }

/-- A concrete in-memory transcript-proof result. -/
def claudeResultEx : VerifiableClaudeResult :=
  { text := "Paris", proof := proofEx, timestamp := 0,
    model := "claude-3-5-sonnet-20241022", provider := "reclaim",
    rawResponse := none }

/-- A verification collaborator that accepts every proof. -/
def vpTrue : Proof → Except String Bool := fun _ => .ok true

/-- A client configuration with a non-default endpoint. -/
def cfgCustom : VerifiableClaudeConfig :=
  { apiKey := "k", reclaimAppId := "a", reclaimAppSecret := "s",
    endpoint := some "https://example.com" }

/-- A client configuration with the default endpoint. -/
def cfgDefault : VerifiableClaudeConfig :=
  { apiKey := "k", reclaimAppId := "a", reclaimAppSecret := "s",
    endpoint := none }

/-- A parsed provider response whose `content` array has no text item. -/
def respNoText : ParsedResponse := { content := some [] }

/-- A proof bundle carrying `respNoText` as its extracted response. -/
def proofWithResp : Proof :=
  { extractedParameterValues :=
      some { response := some (.wellFormed respNoText) } }

/-- A zkFetch collaborator that returns `proofWithResp` for every request. -/
def zkOk : ClaudeRequestBody → Except String (Option Proof) :=
  fun _ => .ok (some proofWithResp)

/-- Generation options carrying an empty `messages` array and no prompt. -/
def optsEmptyMsgs : ClaudeGenerateOptions :=
  { model := none, messages := some [], prompt := none, system := none,
    maxTokens := none, temperature := none, stopSequences := none }

/-- Generation options with neither `messages` nor `prompt`. -/
def optsNoInput : ClaudeGenerateOptions :=
  { model := none, messages := none, prompt := none, system := none,
    maxTokens := none, temperature := none, stopSequences := none }

/-- Generation options with a single-turn prompt. -/
def optsPromptEx : ClaudeGenerateOptions :=
  { model := none, messages := none, prompt := some "hi", system := none,
    maxTokens := none, temperature := none, stopSequences := none }

/-- A default EigenAI client configuration. -/
def ecfgEx : EigenAIConfig := { apiKey := "k", endpoint := none }

/-- A concrete chat-completion response with one choice. -/
def chatRespEx : ChatResponse :=
  { id := "resp-1", choices := [{ message := some { content := some "4" } }] }

/-- A chat collaborator that returns `chatRespEx` for every request. -/
def createOk : ChatRequest → Except String ChatResponse :=
  fun _ => .ok chatRespEx

/-- EigenAI generation options with a prompt and an explicit seed. -/
def eoptsEx : EigenAIGenerateOptions :=
  { model := none, messages := none, prompt := some "2+2?", system := none,
    maxTokens := none, temperature := none, seed := some 42, stop := none }

/-- EigenAI generation options with an empty `messages` array, no prompt. -/
def eoptsEmptyMsgs : EigenAIGenerateOptions :=
  { model := none, messages := some [], prompt := none, system := none,
    maxTokens := none, temperature := none, seed := some 7, stop := none }

/-- EigenAI generation options with neither `messages` nor `prompt`. -/
def eoptsNoInput : EigenAIGenerateOptions :=
  { model := none, messages := none, prompt := none, system := none,
    maxTokens := none, temperature := none, seed := some 7, stop := none }

/-- The result `eigenGenerate createOk 0 0 eoptsEx` produces. -/
def eigenResEx : EigenAIResult :=
  { text := "4"
    attestation :=
      { seed := 42
        model := "gpt-oss-120b-f16"
        requestId := some "resp-1"
        signatures := none
        requestParams :=
          { messages := [{ role := "user", content := "2+2?" }]
            temperature := some 0
            maxTokens := some 1024 } }
    timestamp := 0
    model := "gpt-oss-120b-f16"
    provider := "eigenai"
    rawResponse := some chatRespEx }

/-- The result `eigenGenerate createOk 0 0 eoptsEmptyMsgs` produces. -/
def eigenResEmptyEx : EigenAIResult :=
  { text := "4"
    attestation :=
      { seed := 7
        model := "gpt-oss-120b-f16"
        requestId := some "resp-1"
        signatures := none
        requestParams :=
          { messages := []
            temperature := some 0
            maxTokens := some 1024 } }
    timestamp := 0
    model := "gpt-oss-120b-f16"
    provider := "eigenai"
    rawResponse := some chatRespEx }

/-! ## Helper lemmas -/

/-- The JavaScript default `a || 1024` never produces 0. -/
theorem numOrDefault_1024_ne_zero (a : Option Int) :
    numOrDefault a 1024 ≠ 0 := by
  cases a with
  | none => simp [numOrDefault]
  | some n => by_cases h : n = 0 <;> simp [numOrDefault, h]

/-- The JavaScript default `a || 1024` is the identity on nonzero values. -/
theorem numOrDefault_1024_of_ne_zero (n : Int) (h : n ≠ 0) :
    numOrDefault (some n) 1024 = n := by
  simp [numOrDefault, h]

/-- Successful generation on the re-execution strategy decomposes into a
successful message build, a successful provider call on the built request,
and the literally recorded result (src/eigenai.ts lines 95-129). -/
theorem eigenGenerate_ok_elim
    (create : ChatRequest → Except String ChatResponse) (rand : Rat)
    (now : Int) (options : EigenAIGenerateOptions) (r : EigenAIResult)
    (hgen : eigenGenerate create rand now options = .ok r) :
    ∃ messages response,
      eigenBuildMessages options = .ok messages ∧
      create (eigenGenerateRequest options rand messages) = .ok response ∧
      r = { text := choiceText response
            attestation :=
              { seed := (eigenGenerateRequest options rand messages).seed
                model := (eigenGenerateRequest options rand messages).model
                requestId := some response.id
                signatures := none
                requestParams :=
                  { messages := messages
                    temperature :=
                      some (eigenGenerateRequest options rand messages).temperature
                    maxTokens :=
                      some (eigenGenerateRequest options rand messages).max_tokens } }
            timestamp := now
            model := (eigenGenerateRequest options rand messages).model
            provider := "eigenai"
            rawResponse := some response } := by
  unfold eigenGenerate at hgen
  cases hbm : eigenBuildMessages options with
  | error e => rw [hbm] at hgen; exact absurd hgen (by simp)
  | ok messages =>
    rw [hbm] at hgen
    simp only at hgen
    cases hc : create (eigenGenerateRequest options rand messages) with
    | error m => rw [hc] at hgen; exact absurd hgen (by simp)
    | ok response =>
      rw [hc] at hgen
      simp only at hgen
      exact ⟨messages, response, rfl, hc, (Except.ok.inj hgen).symm⟩

/-! ## Claim theorems -/

/-- C3: for the re-execution strategy, every `VerificationResult` returned
by `verify` or `verifySerializedProof` — on the success path and on the
error path alike — carries an `outputMatches` field equal to its `isValid`
field. -/
theorem C3_isValid_eq_outputMatches
    (create : ChatRequest → Except String ChatResponse)
    (config : EigenAIConfig) (result : EigenAIResult)
    (serialized : SerializedRecord) :
    (eigenVerify create config result).outputMatches
        = some (eigenVerify create config result).isValid
    ∧ (eigenVerifySerializedProof create config serialized).outputMatches
        = some (eigenVerifySerializedProof create config serialized).isValid := by
  constructor
  · cases h : create (reExecRequest result.attestation) <;>
      simp [eigenVerify, h]
  · cases hp : jsonParseField serialized.attestationJson with
    | error m => simp [eigenVerifySerializedProof, hp]
    | ok a =>
      cases h : create (reExecRequest a) <;>
        simp [eigenVerifySerializedProof, hp, h]

/-- C5: for every input and every fault raised by a collaborator (exception
from the witness-verification call, provider error during re-execution,
malformed serialized payload), `verify` and `verifySerializedProof` of both
strategies return a result with `isValid` false and `error` set to the
underlying message; being total Lean functions they propagate no
exception. -/
theorem C5_neverThrows (vp : Proof → Except String Bool)
    (create : ChatRequest → Except String ChatResponse)
    (config : VerifiableClaudeConfig) (econfig : EigenAIConfig)
    (result : VerifiableClaudeResult) (eresult : EigenAIResult)
    (serialized : SerializedRecord) (p : Proof) (a : EigenAIAttestation)
    (m : String) :
    (vp result.proof = .error m →
      claudeVerify vp config result
        = { isValid := false, verifiedEndpoint := none, error := some m })
    ∧ (jsonParseField serialized.proofJson = .error m →
      claudeVerifySerializedProof vp serialized
        = { isValid := false, verifiedEndpoint := none, error := some m })
    ∧ (jsonParseField serialized.proofJson = .ok p → vp p = .error m →
      claudeVerifySerializedProof vp serialized
        = { isValid := false, verifiedEndpoint := none, error := some m })
    ∧ (create (reExecRequest eresult.attestation) = .error m →
      eigenVerify create econfig eresult
        = { isValid := false, outputMatches := some false,
            reExecutedOutput := none, verifiedEndpoint := none,
            error := some m })
    ∧ (jsonParseField serialized.attestationJson = .error m →
      eigenVerifySerializedProof create econfig serialized
        = { isValid := false, outputMatches := some false,
            reExecutedOutput := none, verifiedEndpoint := none,
            error := some m })
    ∧ (jsonParseField serialized.attestationJson = .ok a →
        create (reExecRequest a) = .error m →
      eigenVerifySerializedProof create econfig serialized
        = { isValid := false, outputMatches := some false,
            reExecutedOutput := none, verifiedEndpoint := none,
            error := some m }) := by
  refine ⟨?_, ?_, ?_, ?_, ?_, ?_⟩
  · intro h; simp [claudeVerify, h]
  · intro h; simp [claudeVerifySerializedProof, h]
  · intro hp h; simp [claudeVerifySerializedProof, hp, h]
  · intro h; simp [eigenVerify, h]
  · intro h; simp [eigenVerifySerializedProof, h]
  · intro hp h; simp [eigenVerifySerializedProof, hp, h]

/-- C5 witness: a rejecting collaborator and a serialized record whose
payload field is missing each produce the documented invalid result at
concrete inputs. -/
theorem C5_neverThrows_witness :
    claudeVerify (fun _ => .error "boom") cfgDefault claudeResultEx
      = { isValid := false, verifiedEndpoint := none, error := some "boom" }
    ∧ eigenVerifySerializedProof createOk ecfgEx
        (claudeSerializeResult claudeResultEx)
      = { isValid := false, outputMatches := some false,
          reExecutedOutput := none, verifiedEndpoint := none,
          error := some jsonParseUndefinedError } :=
  ⟨(C5_neverThrows (fun _ => .error "boom") createOk cfgDefault ecfgEx
      claudeResultEx eigenResEx (claudeSerializeResult claudeResultEx)
      proofEx eigenResEx.attestation "boom").1 rfl,
   (C5_neverThrows vpTrue createOk cfgDefault ecfgEx
      claudeResultEx eigenResEx (claudeSerializeResult claudeResultEx)
      proofEx eigenResEx.attestation jsonParseUndefinedError).2.2.2.2.1 rfl⟩

/-- C6 counterexample: a transcript-proof serialized record passed to the
re-execution verifier does not yield a ProviderMismatch error — the code
has no such error kind; the call fails with the generic JSON parse error
raised by reading the absent `attestationJson` field (it does return
`isValid` false). -/
theorem C6_strategyIsolation_cex :
    (eigenVerifySerializedProof createOk ecfgEx
        (claudeSerializeResult claudeResultEx)).error
      = some jsonParseUndefinedError
    ∧ jsonParseUndefinedError ≠ "ProviderMismatch"
    ∧ (eigenVerifySerializedProof createOk ecfgEx
        (claudeSerializeResult claudeResultEx)).isValid = false := by
  decide

/-- C6 (amended): a serialized proof of the transcript-proof strategy passed
to the re-execution verifier (and vice versa) always yields `isValid` false
with the generic JSON-parse error of the absent payload field — the code
defines no ProviderMismatch error kind — and never `isValid` true. -/
theorem C6_strategyIsolation_amended
    (create : ChatRequest → Except String ChatResponse)
    (econfig : EigenAIConfig) (vp : Proof → Except String Bool)
    (result : VerifiableClaudeResult) (eresult : EigenAIResult) :
    eigenVerifySerializedProof create econfig (claudeSerializeResult result)
      = { isValid := false, outputMatches := some false,
          reExecutedOutput := none, verifiedEndpoint := none,
          error := some jsonParseUndefinedError }
    ∧ claudeVerifySerializedProof vp (eigenSerializeResult eresult)
      = { isValid := false, verifiedEndpoint := none,
          error := some jsonParseUndefinedError } := by
  constructor
  · simp [eigenVerifySerializedProof, claudeSerializeResult, jsonParseField]
  · simp [claudeVerifySerializedProof, eigenSerializeResult, jsonParseField]

/-- C10: the outcome of the static transcript-proof `verifySerializedProof`
depends only on the `proofJson` field of the serialized record: two records
with identical `proofJson` but arbitrary other fields verify to identical
results — in particular tampering with the serialized `text` is not
detected by this path. -/
theorem C10_dependsOnlyOnProofJson (vp : Proof → Except String Bool)
    (s1 s2 : SerializedRecord) (h : s1.proofJson = s2.proofJson) :
    claudeVerifySerializedProof vp s1 = claudeVerifySerializedProof vp s2 := by
  unfold claudeVerifySerializedProof
  rw [h]

/-- C10 witness: tampering with the text, timestamp and model of a concrete
serialized record leaves the verification result unchanged. -/
theorem C10_dependsOnlyOnProofJson_witness :
    claudeVerifySerializedProof vpTrue (claudeSerializeResult claudeResultEx)
      = claudeVerifySerializedProof vpTrue
          { claudeSerializeResult claudeResultEx with
            text := "tampered", timestamp := 999, model := "other" } :=
  C10_dependsOnlyOnProofJson vpTrue (claudeSerializeResult claudeResultEx)
    { claudeSerializeResult claudeResultEx with
      text := "tampered", timestamp := 999, model := "other" } rfl

/-- C1 counterexample: round-trip fidelity fails for the full verification
outcome on the transcript-proof strategy under a non-default configured
endpoint — `verify` binds `verifiedEndpoint` to the configured endpoint
while the static `verifySerializedProof` binds the default Anthropic
endpoint, so on a concrete accepted proof the two outcomes differ. -/
theorem C1_roundTripFidelity_cex :
    claudeVerifySerializedProof vpTrue (claudeSerializeResult claudeResultEx)
      ≠ claudeVerify vpTrue cfgCustom claudeResultEx := by
  decide

/-- C1 (amended): verifying the serialized form of a result yields the same
`isValid` and `error` as verifying the in-memory result for the
transcript-proof strategy — with the full outcome identical whenever the
configured endpoint is the default — and the fully identical outcome for
the re-execution strategy. -/
theorem C1_roundTripFidelity_amended (vp : Proof → Except String Bool)
    (config : VerifiableClaudeConfig) (result : VerifiableClaudeResult)
    (create : ChatRequest → Except String ChatResponse)
    (econfig : EigenAIConfig) (eresult : EigenAIResult) :
    (claudeVerifySerializedProof vp (claudeSerializeResult result)).isValid
        = (claudeVerify vp config result).isValid
    ∧ (claudeVerifySerializedProof vp (claudeSerializeResult result)).error
        = (claudeVerify vp config result).error
    ∧ (config.endpoint = none →
        claudeVerifySerializedProof vp (claudeSerializeResult result)
          = claudeVerify vp config result)
    ∧ eigenVerifySerializedProof create econfig (eigenSerializeResult eresult)
        = eigenVerify create econfig eresult := by
  refine ⟨?_, ?_, ?_, ?_⟩
  · cases h : vp result.proof <;>
      simp [claudeVerifySerializedProof, claudeSerializeResult,
        jsonParseField, claudeVerify, h]
  · cases h : vp result.proof <;>
      simp [claudeVerifySerializedProof, claudeSerializeResult,
        jsonParseField, claudeVerify, h]
  · intro hep
    cases h : vp result.proof <;>
      simp [claudeVerifySerializedProof, claudeSerializeResult,
        jsonParseField, claudeVerify, claudeEndpoint, strOrDefault, hep, h]
  · cases h : create (reExecRequest eresult.attestation) <;>
      simp [eigenVerifySerializedProof, eigenSerializeResult,
        jsonParseField, eigenVerify, h]

/-- C1 witness: at the default endpoint the serialized and in-memory
verifications of a concrete transcript-proof result coincide exactly, as do
those of a concrete re-execution result. -/
theorem C1_roundTripFidelity_witness :
    claudeVerifySerializedProof vpTrue (claudeSerializeResult claudeResultEx)
        = claudeVerify vpTrue cfgDefault claudeResultEx
    ∧ eigenVerifySerializedProof createOk ecfgEx
          (eigenSerializeResult eigenResEx)
        = eigenVerify createOk ecfgEx eigenResEx :=
  ⟨(C1_roundTripFidelity_amended vpTrue cfgDefault claudeResultEx
      createOk ecfgEx eigenResEx).2.2.1 rfl,
   (C1_roundTripFidelity_amended vpTrue cfgDefault claudeResultEx
      createOk ecfgEx eigenResEx).2.2.2⟩

/-- C2 counterexample: under a non-default configured endpoint, the static
`verifySerializedProof` still binds `verifiedEndpoint` to the default
Anthropic endpoint, not to the configured endpoint with the `/messages`
path, even though the proof is accepted. -/
theorem C2_endpointBinding_cex :
    (claudeVerifySerializedProof vpTrue
        (claudeSerializeResult claudeResultEx)).isValid = true
    ∧ (claudeVerifySerializedProof vpTrue
        (claudeSerializeResult claudeResultEx)).verifiedEndpoint
      ≠ some (claudeEndpoint cfgCustom ++ "/messages") := by
  decide

/-- C2 (amended): `verify` binds `verifiedEndpoint` to the configured
endpoint with the `/messages` path exactly when `isValid` is true and to
`undefined` otherwise; the static `verifySerializedProof` binds the
constant default Anthropic endpoint with the `/messages` path exactly when
`isValid` is true — regardless of any client configuration — and
`undefined` otherwise. -/
theorem C2_endpointBinding_amended (vp : Proof → Except String Bool)
    (config : VerifiableClaudeConfig) (result : VerifiableClaudeResult)
    (serialized : SerializedRecord) :
    ((claudeVerify vp config result).isValid = true →
      (claudeVerify vp config result).verifiedEndpoint
        = some (claudeEndpoint config ++ "/messages"))
    ∧ ((claudeVerify vp config result).isValid = false →
      (claudeVerify vp config result).verifiedEndpoint = none)
    ∧ ((claudeVerifySerializedProof vp serialized).isValid = true →
      (claudeVerifySerializedProof vp serialized).verifiedEndpoint
        = some (ANTHROPIC_API_ENDPOINT ++ "/messages"))
    ∧ ((claudeVerifySerializedProof vp serialized).isValid = false →
      (claudeVerifySerializedProof vp serialized).verifiedEndpoint
        = none) := by
  refine ⟨?_, ?_, ?_, ?_⟩
  · cases h : vp result.proof with
    | ok b => cases b <;> simp [claudeVerify, h]
    | error m => simp [claudeVerify, h]
  · cases h : vp result.proof with
    | ok b => cases b <;> simp [claudeVerify, h]
    | error m => simp [claudeVerify, h]
  · cases hp : jsonParseField serialized.proofJson with
    | error m => simp [claudeVerifySerializedProof, hp]
    | ok p =>
      cases h : vp p with
      | ok b => cases b <;> simp [claudeVerifySerializedProof, hp, h]
      | error m => simp [claudeVerifySerializedProof, hp, h]
  · cases hp : jsonParseField serialized.proofJson with
    | error m => simp [claudeVerifySerializedProof, hp]
    | ok p =>
      cases h : vp p with
      | ok b => cases b <;> simp [claudeVerifySerializedProof, hp, h]
      | error m => simp [claudeVerifySerializedProof, hp, h]

/-- C2 witness: on a concrete accepted result, `verify` binds the
configured custom endpoint and the static serialized path binds the default
endpoint. -/
theorem C2_endpointBinding_witness :
    (claudeVerify vpTrue cfgCustom claudeResultEx).verifiedEndpoint
        = some (claudeEndpoint cfgCustom ++ "/messages")
    ∧ (claudeVerifySerializedProof vpTrue
          (claudeSerializeResult claudeResultEx)).verifiedEndpoint
        = some (ANTHROPIC_API_ENDPOINT ++ "/messages") :=
  ⟨(C2_endpointBinding_amended vpTrue cfgCustom claudeResultEx
      (claudeSerializeResult claudeResultEx)).1 (by decide),
   (C2_endpointBinding_amended vpTrue cfgCustom claudeResultEx
      (claudeSerializeResult claudeResultEx)).2.2.1 (by decide)⟩

/-- C4: for a result produced by the re-execution `generate`, `verify`
re-issues the request with exactly the attestation's captured parameters —
model, messages, maxTokens, temperature and seed all coincide with the
recorded ones — and sets `outputMatches` to true exactly when the freshly
produced text is string-equal (byte-for-byte) to `result.text`. -/
theorem C4_replayExact
    (create create2 : ChatRequest → Except String ChatResponse)
    (config : EigenAIConfig) (rand : Rat) (now : Int)
    (options : EigenAIGenerateOptions) (r : EigenAIResult)
    (resp : ChatResponse)
    (hgen : eigenGenerate create rand now options = .ok r)
    (hre : create2 (reExecRequest r.attestation) = .ok resp) :
    (reExecRequest r.attestation).model = r.attestation.model
    ∧ (reExecRequest r.attestation).messages
        = r.attestation.requestParams.messages
    ∧ r.attestation.requestParams.maxTokens
        = some (reExecRequest r.attestation).max_tokens
    ∧ r.attestation.requestParams.temperature
        = some (reExecRequest r.attestation).temperature
    ∧ (reExecRequest r.attestation).seed = r.attestation.seed
    ∧ (eigenVerify create2 config r).outputMatches
        = some (choiceText resp == r.text)
    ∧ ((eigenVerify create2 config r).isValid = true
        ↔ choiceText resp = r.text) := by
  obtain ⟨messages, response, hbm, hcr, hr⟩ :=
    eigenGenerate_ok_elim create rand now options r hgen
  subst hr
  refine ⟨rfl, rfl, ?_, ?_, rfl, ?_, ?_⟩
  · simp [reExecRequest, eigenGenerateRequest,
      numOrDefault_1024_of_ne_zero _ (numOrDefault_1024_ne_zero options.maxTokens)]
  · simp [reExecRequest]
  · simp [eigenVerify, hre]
  · simp [eigenVerify, hre]

/-- C4 witness: a concrete generated result replayed against a collaborator
returning the same text verifies with matching output. -/
theorem C4_replayExact_witness :
    (eigenVerify createOk ecfgEx eigenResEx).isValid = true
      ↔ choiceText chatRespEx = eigenResEx.text :=
  (C4_replayExact createOk createOk ecfgEx 0 0 eoptsEx eigenResEx chatRespEx
    (by decide) (by decide)).2.2.2.2.2.2

/-- C7 counterexample: an empty `messages` array with no prompt does not
make `generate` fail before dispatch on either strategy — the truthiness
check accepts the empty array and the request is dispatched with an empty
message sequence, here completing successfully against concrete
collaborators. -/
theorem C7_nonEmptyDispatch_cex :
    optsEmptyMsgs.messages = some [] ∧ optsEmptyMsgs.prompt = none
    ∧ claudeGenerate zkOk 0 optsEmptyMsgs
        = .ok { text := "", proof := proofWithResp, timestamp := 0,
                model := "claude-3-5-sonnet-20241022", provider := "reclaim",
                rawResponse := some respNoText }
    ∧ eoptsEmptyMsgs.messages = some [] ∧ eoptsEmptyMsgs.prompt = none
    ∧ eigenGenerate createOk 0 0 eoptsEmptyMsgs = .ok eigenResEmptyEx := by
  decide

/-- C7 (amended): on both strategies `generate` fails before dispatch, with
the missing-input error, exactly when `messages` is absent and `prompt` is
absent or empty; a supplied `messages` array — even an empty one — is
accepted and the request is dispatched with the resolved (possibly empty)
message sequence. -/
theorem C7_nonEmptyDispatch_amended (options : ClaudeGenerateOptions)
    (eo : EigenAIGenerateOptions) :
    (claudeBuildMessages options = .error missingInputError
        ↔ options.messages = none ∧ strTruthy options.prompt = false)
    ∧ (∀ ms, options.messages = some ms →
        claudeBuildMessages options = .ok ms)
    ∧ (∀ zk now, claudeBuildMessages options = .error missingInputError →
        claudeGenerate zk now options = .error missingInputError)
    ∧ (eigenBuildMessages eo = .error missingInputError
        ↔ eo.messages = none ∧ strTruthy eo.prompt = false)
    ∧ (∀ ms, eo.messages = some ms →
        ∃ base, eigenBuildMessages eo = .ok (base ++ ms))
    ∧ (∀ create rand now,
        eigenBuildMessages eo = .error missingInputError →
        eigenGenerate create rand now eo = .error missingInputError) := by
  refine ⟨?_, ?_, ?_, ?_, ?_, ?_⟩
  · cases hm : options.messages with
    | some ms => simp [claudeBuildMessages, hm]
    | none =>
      cases hp : options.prompt with
      | none => simp [claudeBuildMessages, hm, hp, strTruthy]
      | some p =>
        by_cases hpe : p = "" <;>
          simp [claudeBuildMessages, hm, hp, strTruthy, hpe]
  · intro ms hm; simp [claudeBuildMessages, hm]
  · intro zk now h
    unfold claudeGenerate
    rw [h]
  · cases hm : eo.messages with
    | some ms => simp [eigenBuildMessages, hm]
    | none =>
      cases hp : eo.prompt with
      | none => simp [eigenBuildMessages, hm, hp, strTruthy]
      | some p =>
        by_cases hpe : p = "" <;>
          simp [eigenBuildMessages, hm, hp, strTruthy, hpe]
  · intro ms hm
    cases hs : eo.system with
    | none => exact ⟨[], by simp [eigenBuildMessages, hm, hs]⟩
    | some s =>
      by_cases hse : s = ""
      · exact ⟨[], by simp [eigenBuildMessages, hm, hs, hse]⟩
      · exact ⟨[{ role := "system", content := s }],
          by simp [eigenBuildMessages, hm, hs, hse]⟩
  · intro create rand now h
    unfold eigenGenerate
    rw [h]

/-- C7 witness: options with neither messages nor prompt make both
strategies fail with the missing-input error. -/
theorem C7_nonEmptyDispatch_witness :
    claudeGenerate zkOk 0 optsNoInput = .error missingInputError
    ∧ eigenGenerate createOk 0 0 eoptsNoInput = .error missingInputError :=
  ⟨(C7_nonEmptyDispatch_amended optsNoInput eoptsNoInput).2.2.1 zkOk 0
      (by decide),
   (C7_nonEmptyDispatch_amended optsNoInput eoptsNoInput).2.2.2.2.2
      createOk 0 0 (by decide)⟩

/-- C8: when no seed is supplied the engine assigns
`Math.floor(Math.random() * 2147483647)`, a non-negative integer below
2147483647; the dispatched request carries the resolved seed, and every
successful `generate` records exactly that seed in its attestation. -/
theorem C8_seedAssignment (rand : Rat) (options : EigenAIGenerateOptions)
    (h0 : 0 ≤ rand) (h1 : rand < 1) :
    (0 ≤ generateSeed rand ∧ generateSeed rand < 2147483647)
    ∧ (∀ msgs, (eigenGenerateRequest options rand msgs).seed
        = eigenSeedOf options rand)
    ∧ (options.seed = none → eigenSeedOf options rand = generateSeed rand)
    ∧ (∀ create now r, eigenGenerate create rand now options = .ok r →
        r.attestation.seed = eigenSeedOf options rand) := by
  have hc : (0:Rat) < 2147483647 := by norm_num
  have hmul0 : (0:Rat) ≤ rand * 2147483647 := mul_nonneg h0 (le_of_lt hc)
  have hmul1 : rand * 2147483647 < 2147483647 := by
    have := mul_lt_mul_of_pos_right h1 hc
    simpa using this
  refine ⟨⟨?_, ?_⟩, ?_, ?_, ?_⟩
  · exact Int.floor_nonneg.mpr hmul0
  · have hcast : rand * 2147483647 < ((2147483647 : Int) : Rat) := by
      push_cast
      exact hmul1
    exact Int.floor_lt.mpr hcast
  · intro msgs; rfl
  · intro h; simp [eigenSeedOf, h]
  · intro create now r hgen
    obtain ⟨messages, response, hbm, hcr, hr⟩ :=
      eigenGenerate_ok_elim create rand now options r hgen
    subst hr
    rfl

/-- C8 witness: at the concrete random draw 0 the hypotheses hold, the
bounds follow, and a concrete successful generation records the resolved
seed in its attestation. -/
theorem C8_seedAssignment_witness :
    ((0:Rat) ≤ 0 ∧ (0:Rat) < 1)
    ∧ (0 ≤ generateSeed 0 ∧ generateSeed 0 < 2147483647)
    ∧ eigenResEx.attestation.seed = eigenSeedOf eoptsEx 0 :=
  ⟨⟨by norm_num, by norm_num⟩,
   (C8_seedAssignment 0 eoptsEx (by norm_num) (by norm_num)).1,
   (C8_seedAssignment 0 eoptsEx (by norm_num) (by norm_num)).2.2.2
     createOk 0 eigenResEx (by decide)⟩

/-- C9: when the transcript-proof `generate` extracts and parses the
response but the parsed object has no array `content` field, or its
`content` array has no item of type text, generation does not fail: it
returns a fully constructed result whose `text` is the empty string. -/
theorem C9_emptyTextTolerated
    (zk : ClaudeRequestBody → Except String (Option Proof)) (now : Int)
    (options : ClaudeGenerateOptions) (messages : List Message) (p : Proof)
    (resp : ParsedResponse)
    (hmsgs : claudeBuildMessages options = .ok messages)
    (hzk : zk (claudeRequestBody options messages) = .ok (some p))
    (hresp : p.extractedParameterValues
      = some { response := some (.wellFormed resp) })
    (hcontent : resp.content = none ∨
      ∀ item ∈ (resp.content).getD [], item.type ≠ some "text") :
    claudeGenerate zk now options
      = .ok { text := ""
              proof := p
              timestamp := now
              model := strOrDefault options.model "claude-3-5-sonnet-20241022"
              provider := "reclaim"
              rawResponse := some resp } := by
  have htext : extractText resp = "" := by
    cases hcont : resp.content with
    | none => simp [extractText, hcont]
    | some items =>
      rcases hcontent with h | h
      · rw [hcont] at h
        simp at h
      · rw [hcont] at h
        simp only [Option.getD_some] at h
        have hfind : items.find? (fun item => item.type == some "text")
            = none := by
          apply List.find?_eq_none.mpr
          intro x hx
          simpa using h x hx
        simp [extractText, hcont, hfind]
  unfold claudeGenerate
  rw [hmsgs]
  simp only [hzk, hresp, htext]
  rfl

/-- C9 witness: a concrete collaborator returning a parsed response whose
content array has no text item yields a successful result with empty
text. -/
theorem C9_emptyTextTolerated_witness :
    claudeGenerate zkOk 0 optsPromptEx
      = .ok { text := "", proof := proofWithResp, timestamp := 0,
              model := strOrDefault optsPromptEx.model
                "claude-3-5-sonnet-20241022",
              provider := "reclaim", rawResponse := some respNoText } :=
  C9_emptyTextTolerated zkOk 0 optsPromptEx
    [{ role := "user", content := "hi" }] proofWithResp respNoText
    (by decide) (by decide) (by decide) (Or.inr (by decide))

end VerifiableInference
